import Mathlib

/-!
Shallow embedding of the Horovod Spark PyTorch estimator
(`horovod/spark/torch/estimator.py` and `horovod/spark/common/params.py`).

Opaque numeric objects (models, optimizers, histories) are modelled by small
concrete structures carrying a payload and a device placement, so that the
byte-level codec, the checkpoint store and the worker results can be embedded
executably.  External collaborators (data preparation, the execution backend's
`run`, the shape-compatibility checker) are supplied as inputs in an `Env`
record, and the fit path records which collaborators it invoked in an event
trace, mirroring the call order of `TorchEstimator._fit`.
-/

namespace Horovod

/-- Device placement of an opaque torch object (CPU or an accelerator). -/
inductive Device
  | cpu
  | accel (n : Nat)
  deriving DecidableEq, Repr

/-- An opaque torch object (model, history, checkpoint blob, ...): a payload
identifying the object plus its device placement. -/
structure Obj where
  payload : Nat
  device : Device
  deriving DecidableEq, Repr

/-- Two-cell encoding of a device placement, used by the byte codecs. -/
def encodeDevice : Device → List Nat
  | Device.cpu => [0, 0]
  | Device.accel n => [1, n]

/-- Inverse of `encodeDevice` on two cells. -/
def decodeDevice2 : Nat → Nat → Option Device
  | 0, _ => some Device.cpu
  | 1, n => some (Device.accel n)
  | _, _ => none

/-- Modelled from the spec: the Codec (§4.2) `encode` of
`horovod/run/common/util/codec.py` (`codec.dumps_base64`), which is not under
`src/`; an injective portable byte encoding of an opaque object. -/
def dumps_base64 (o : Obj) : List Nat :=
  o.payload :: encodeDevice o.device

/-- Modelled from the spec: the Codec (§4.2) `decode` of
`horovod/run/common/util/codec.py` (`codec.loads_base64`); inverse of
`dumps_base64`, failing on malformed bytes. -/
def loads_base64 : List Nat → Option Obj
  | [p, a, b] => (decodeDevice2 a b).map fun d => { payload := p, device := d }
  | _ => none

/-- The state dictionary of an optimizer: the learning rate recorded in its
parameter groups plus the rest of its per-parameter state. -/
structure OptimizerState where
  lr : Rat
  inner : Nat
  deriving DecidableEq, Repr

/-- An opaque torch optimizer: its class identity, the model parameters it was
constructed over, its state dictionary and its device placement. -/
structure Optimizer where
  cls : Nat
  params : Obj
  state : OptimizerState
  device : Device
  deriving DecidableEq, Repr

/-- `optimizer.state_dict()`: returns the optimizer's state dictionary. -/
def Optimizer.state_dict (o : Optimizer) : OptimizerState := o.state

/-- `optimizer.load_state_dict(s)`: replaces the optimizer's state dictionary. -/
def Optimizer.load_state_dict (o : Optimizer) (s : OptimizerState) : Optimizer :=
  { o with state := s }

/-- `optimizer_cls(model.parameters(), lr=...)`: constructs a fresh optimizer
of the given class over the given parameters with the given learning rate. -/
def optimizerNew (cls : Nat) (params : Obj) (lr : Rat) : Optimizer :=
  { cls := cls, params := params, state := { lr := lr, inner := 0 },
    device := params.device }

/-- `model.parameters()`: the model's parameter collection, modelled as the
(opaque) model object itself. -/
def Obj.parameters (m : Obj) : Obj := m

/-- Zigzag encoding of an integer into a natural number. -/
def encInt : Int → Nat
  | Int.ofNat n => 2 * n
  | Int.negSucc n => 2 * n + 1

/-- Inverse of `encInt`. -/
def decInt (n : Nat) : Int :=
  if n % 2 = 0 then Int.ofNat (n / 2) else Int.negSucc (n / 2)

/-- Modelled from the spec: Codec `encode` (§4.2) applied to an optimizer
object (the remote workers return the optimizer as an encoded byte string). -/
def dumps_base64_opt (o : Optimizer) : List Nat :=
  [o.cls, o.params.payload] ++ encodeDevice o.params.device ++
    [encInt o.state.lr.num, o.state.lr.den, o.state.inner] ++ encodeDevice o.device

/-- Modelled from the spec: Codec `decode` (§4.2) applied to optimizer bytes;
inverse of `dumps_base64_opt`, failing on malformed bytes. -/
def loads_base64_opt : List Nat → Option Optimizer
  | [cls, pp, pa, pb, lrn, lrd, inner, da, db] =>
    match decodeDevice2 pa pb, decodeDevice2 da db with
    | some pdev, some dev =>
      some { cls := cls, params := { payload := pp, device := pdev },
             state := { lr := mkRat (decInt lrn) lrd, inner := inner },
             device := dev }
    | _, _ => none
  | _ => none

/-- `torch.load` on a byte buffer without `map_location`: decodes an opaque
object, preserving its recorded device placement; fails on undecodable bytes. -/
def torch_load_bytes (bs : List Nat) : Option Obj := loads_base64 bs

/-! ### Scalar column types and the per-column prediction decode
(`TorchModel._transform.predict`, estimator.py lines 359-381). -/

/-- Spark scalar data types that can appear as a label column's declared type. -/
inductive ScalarType
  | IntegerType
  | LongType
  | FloatType
  | DoubleType
  deriving DecidableEq, Repr

/-- Python-side value types produced by column decoding. -/
inductive PythonType
  | intT
  | floatT
  deriving DecidableEq, Repr

/-- Modelled from the spec: `util.spark_scalar_to_python_type` from
`horovod/spark/common/util.py`, which is not under `src/`; maps a scalar spark
data type to the python type used for the output value (integral spark types
map to `int`, floating types to `float`). -/
def spark_scalar_to_python_type : ScalarType → PythonType
  | ScalarType.IntegerType => PythonType.intT
  | ScalarType.LongType => PythonType.intT
  | ScalarType.FloatType => PythonType.floatT
  | ScalarType.DoubleType => PythonType.floatT

/-- `issubclass(python_type, numbers.Integral)` for the modelled python types. -/
def PythonType.isIntegral : PythonType → Bool
  | PythonType.intT => true
  | PythonType.floatT => false

/-- Python 3 built-in `round` on a rational value: round half to even.  The
fractional part of `q` is `r / q.den` with `r` the floor remainder, so the
half-comparison of the fraction is the comparison of `2 * r` with `q.den`. -/
def pythonRound (q : Rat) : Int :=
  let d : Int := Int.ofNat q.den
  let fl : Int := Int.fdiv q.num d
  let r : Int := q.num - fl * d
  if 2 * r < d then fl
  else if d < 2 * r then fl + 1
  else if fl % 2 = 0 then fl else fl + 1

/-- The declared spark data type of a label column: dense vector, sparse
vector, or a scalar type. -/
inductive ColType
  | DenseVectorType
  | SparseVectorType
  | scalarType (t : ScalarType)
  deriving DecidableEq, Repr

/-- Column metadata for one label column: its declared spark data type and its
declared shape (`metadata[label_col]`). -/
structure ColMeta where
  spark_data_type : ColType
  shape : Nat
  deriving DecidableEq, Repr

/-- Column metadata for all label columns, keyed by column name. -/
abbrev Metadata := List (String × ColMeta)

/-- A decoded output field value: dense vector, sparse vector (size, indices,
values), python int, or python float. -/
inductive RowField
  | dense (values : List Rat)
  | sparse (size : Nat) (indices : List Nat) (values : List Rat)
  | intF (n : Int)
  | floatF (q : Rat)
  deriving DecidableEq, Repr

/-- `pred.reshape(shape,)` on a 1-D prediction tensor: succeeds exactly when
the number of elements matches the declared shape. -/
def torchReshape1d (pred : List Rat) (n : Nat) : Option (List Rat) :=
  if pred.length = n then some pred else none

/-- `tensor.nonzero()` on a 1-D torch tensor: a matrix of indices with one row
per nonzero element (each row is the one-element index of that nonzero). -/
def torch_nonzero (t : List Rat) : List (List Nat) :=
  ((List.range t.length).filter fun i => decide (t.getD i 0 ≠ 0)).map fun i => [i]

/-- Per-column prediction decode, from the body of `predict` in
`TorchModel._transform` (estimator.py lines 359-381): dense vectors are
reshaped and wrapped; sparse vectors are reshaped and then
`flattened_pred.nonzero()[0]` is taken as the index list (torch semantics: the
FIRST row of the nonzero-index matrix; `[0]` on an empty matrix raises); scalar
columns extract the single element, rounding before the cast when the declared
python type is integral. -/
def decodePred (meta : ColMeta) (pred : List Rat) : Option RowField :=
  match meta.spark_data_type with
  | ColType.DenseVectorType =>
    (torchReshape1d pred meta.shape).map RowField.dense
  | ColType.SparseVectorType =>
    (torchReshape1d pred meta.shape).bind fun flattened_pred =>
      ((torch_nonzero flattened_pred).head?).map fun nonzero_indices =>
        RowField.sparse meta.shape nonzero_indices
          (nonzero_indices.map fun i => flattened_pred.getD i 0)
  | ColType.scalarType t =>
    match pred with
    | [v] =>
      let python_type := spark_scalar_to_python_type t
      if python_type.isIntegral then some (RowField.intF (pythonRound v))
      else some (RowField.floatF v)
    | _ => none

/-! ### Constructor loss normalization (`TorchEstimator.__init__`,
estimator.py lines 117-131). -/

/-- A python value supplied for the `loss` / `loss_constructor` keyword: a
scalar (neither list nor tuple), a list, or a tuple. -/
inductive PyLoss
  | scalar (o : Obj)
  | list (l : List Obj)
  | tuple (l : List Obj)
  deriving DecidableEq, Repr

/-- Normalization applied to a supplied loss keyword: a scalar (non-list,
non-tuple) value is wrapped into a one-element list; lists and tuples are kept. -/
def normalizeLossKwarg : PyLoss → PyLoss
  | PyLoss.scalar o => PyLoss.list [o]
  | v => v

/-- The loss-related keyword arguments of `TorchEstimator.__init__`; `none`
means the keyword was not supplied (absent from `self._input_kwargs`). -/
structure TorchEstimatorKwargs where
  loss : Option PyLoss := none
  loss_constructor : Option PyLoss := none
  deriving DecidableEq, Repr

/-- The loss-handling part of `TorchEstimator.__init__` (lines 117-131):
supplying both `loss` and `loss_constructor` raises; otherwise each supplied
keyword is normalized (scalar wrapped into a one-element list) before
`setParams` stores it. -/
def torchEstimatorInitLoss (kw : TorchEstimatorKwargs) :
    Except String TorchEstimatorKwargs :=
  if kw.loss.isSome && kw.loss_constructor.isSome then
    Except.error "only one of loss_constructor and loss parameters can be specified."
  else
    Except.ok { loss := kw.loss.map normalizeLossKwarg,
                loss_constructor := kw.loss_constructor.map normalizeLossKwarg }

/-! ### Parameter persistence (`_torch_param_serialize`,
`TorchEstimatorParamsReader._deserialize_dict`). -/

/-- `_torch_param_serialize` (estimator.py lines 41-50): the backend and store
parameters are never serialized; a null value serializes to null; any other
value is base64-encoded via the codec. -/
def _torch_param_serialize (param_name : String) (param_val : Option Obj) :
    Option (List Nat) :=
  if param_name = "backend" ∨ param_name = "store" then none
  else
    match param_val with
    | none => none
    | some v => some (dumps_base64 v)

/-- `TorchEstimatorParamsReader._deserialize_dict` (estimator.py lines 65-73):
null entries map to null, every non-null entry is base64-decoded; a decode
failure raises. -/
def _deserialize_dict :
    List (String × Option (List Nat)) → Except String (List (String × Option Obj))
  | [] => Except.ok []
  | (key, none) :: rest =>
    match _deserialize_dict rest with
    | Except.error e => Except.error e
    | Except.ok tail => Except.ok ((key, none) :: tail)
  | (key, some val) :: rest =>
    match loads_base64 val with
    | none => Except.error "base64 decode failed"
    | some v =>
      match _deserialize_dict rest with
      | Except.error e => Except.error e
      | Except.ok tail => Except.ok ((key, some v) :: tail)

/-! ### The checkpoint store, execution backend, environment and fit path
(`TorchEstimator._fit`, `_fit_on_prepared_data`, `_has_checkpoint`,
`_load_checkpoint`, `_create_model`; `TorchModel.__init__`). -/

/-- The CheckpointStore adapter interface (spec §4.3 / §6): checkpoint path
lookup by run id, existence check, and byte read.  `exists_` embeds the
store's `exists` operation. -/
structure Store where
  get_checkpoint_path : String → Option String
  exists_ : String → Bool
  read : String → List Nat

/-- An execution backend handle: an opaque identity and its process count
(`backend.num_processes()`). -/
structure Backend where
  handle : Nat := 0
  num_processes : Nat
  deriving DecidableEq, Repr

/-- Modelled from the spec: `SparkBackend(num_proc)` from
`horovod/spark/common/backend.py`, which is not under `src/`; constructs the
default execution backend sized to the given number of processes. -/
def SparkBackend (num_proc : Nat) : Backend :=
  { handle := 0, num_processes := num_proc }

/-- One worker's result returned by `backend.run`: a history plus the base64
encodings of the trained model and of the optimizer. -/
structure RunResult where
  history : Obj
  serialized_model : List Nat
  serialized_optimizer : List Nat
  deriving DecidableEq, Repr

/-- What the Data Preparation collaborator returns: train and validation row
handles, column metadata, and the average row size. -/
structure PrepareResult where
  train_rows : Nat
  val_rows : Nat
  metadata : Metadata
  avg_row_size : Nat
  deriving DecidableEq, Repr

/-- The external collaborators' behavior during one `fit` call: the data
preparation result, the outcome of the shape-compatibility check, the ordered
worker results returned by `backend.run`, and the current time (used to derive
a run id when none is configured). -/
structure Env where
  prepare_data : PrepareResult
  shape_ok : Bool
  run_results : List RunResult
  time : Nat

/-- A collaborator invocation recorded by the fit path, in call order. -/
inductive Event
  | prepareData (num_processes : Nat)
  | shapeCheck
  | checkpointQuery (run_id : String)
  | backendRun (backend_num_processes : Nat) (serialized_model : List Nat)
      (train_rows val_rows avg_row_size : Nat)
      (last_checkpoint_state : Option Obj) (run_id : String)
  deriving DecidableEq, Repr

/-- The trained Model entity (`TorchModel` parameters): every field is a
parameter that may be unset (`none`). -/
structure TorchModel where
  history : Option Obj := none
  model : Option Obj := none
  feature_columns : Option (List String) := none
  input_shapes : Option (List (List Int)) := none
  label_columns : Option (List String) := none
  optimizer : Option Optimizer := none
  run_id : Option String := none
  _metadata : Option Metadata := none
  output_cols : Option (List String) := none
  deriving DecidableEq, Repr

/-- `TorchModel.__init__` (estimator.py lines 284-300): when a non-empty
label-column list is supplied, the output columns are set to each label column
name with `"__output"` appended, in order; all keyword arguments are then
stored via `setParams`. -/
def torchModelInit (history : Option Obj) (model : Option Obj)
    (feature_columns : Option (List String)) (input_shapes : Option (List (List Int)))
    (label_columns : Option (List String)) (optimizer : Option Optimizer)
    (run_id : Option String) (md : Option Metadata) : TorchModel :=
  let output_cols : Option (List String) :=
    match label_columns with
    | some cols =>
      if cols.isEmpty then none
      else some (cols.map fun col => col ++ "__output")
    | none => none
  { history := history, model := model, feature_columns := feature_columns,
    input_shapes := input_shapes, label_columns := label_columns,
    optimizer := optimizer, run_id := run_id, _metadata := md,
    output_cols := output_cols }

/-- The estimator's parameters relevant to the fit path (`EstimatorParams`
defaults from params.py: every one of these defaults to unset). -/
structure TorchEstimator where
  num_proc : Option Nat := none
  model : Option Obj := none
  backend : Option Backend := none
  store : Option Store := none
  optimizer : Option Optimizer := none
  loss : Option PyLoss := none
  loss_constructor : Option PyLoss := none
  feature_cols : Option (List String) := none
  input_shapes : Option (List (List Int)) := none
  label_cols : Option (List String) := none
  run_id : Option String := none
  verbose : Nat := 1

/-- `TorchEstimator.getOptimizer` (estimator.py lines 145-155): with a model
set, a fresh optimizer of the stored optimizer's class is constructed over the
model's parameters with `lr=1` and the stored optimizer's state dictionary is
loaded into it; with no model set, the stored optimizer parameter is returned
as-is.  The second component is the estimator after the call (the method
performs no parameter mutation); accessing `state_dict` of an unset optimizer
raises. -/
def TorchEstimator.getOptimizer (est : TorchEstimator) :
    Except String (Option Optimizer) × TorchEstimator :=
  match est.model with
  | some model =>
    match est.optimizer with
    | none => (Except.error "AttributeError", est)
    | some optimizer =>
      let optimizer_cls := optimizer.cls
      let optimizer_state := optimizer.state_dict
      let optimzer := optimizerNew optimizer_cls model.parameters 1
      let optimzer := optimzer.load_state_dict optimizer_state
      (Except.ok (some optimzer), est)
  | none => (Except.ok est.optimizer, est)

/-- `TorchModel.getOptimizer` (estimator.py lines 314-324): identical logic to
the estimator's `getOptimizer`, over the trained model's parameters. -/
def TorchModel.getOptimizer (tm : TorchModel) :
    Except String (Option Optimizer) × TorchModel :=
  match tm.model with
  | some model =>
    match tm.optimizer with
    | none => (Except.error "AttributeError", tm)
    | some optimizer =>
      let optimizer_cls := optimizer.cls
      let optimizer_state := optimizer.state_dict
      let optimzer := optimizerNew optimizer_cls model.parameters 1
      let optimzer := optimzer.load_state_dict optimizer_state
      (Except.ok (some optimzer), tm)
  | none => (Except.ok tm.optimizer, tm)

/-- `TorchEstimator._has_checkpoint` (estimator.py lines 239-242): true exactly
when the store returns a non-null checkpoint path and that path exists. -/
def TorchEstimator._has_checkpoint (store : Store) (run_id : String) : Bool :=
  match store.get_checkpoint_path run_id with
  | none => false
  | some last_ckpt_path => store.exists_ last_ckpt_path

/-- `TorchEstimator._load_checkpoint` (estimator.py lines 244-252): reads the
checkpoint bytes at the store's path for this run id and decodes them with
`torch.load` (devices preserved); only ever called when `_has_checkpoint` is
true, so the path is non-null. -/
def TorchEstimator._load_checkpoint (store : Store) (run_id : String) : Option Obj :=
  match store.get_checkpoint_path run_id with
  | none => none
  | some last_ckpt_path => torch_load_bytes (store.read last_ckpt_path)

/-- The checkpoint-resolution step of `_fit_on_prepared_data` (estimator.py
lines 227-229): `last_checkpoint_state` stays null unless `_has_checkpoint`
holds, in which case the checkpoint is read and decoded (a decode failure
raises). -/
def lastCheckpointState (store : Store) (run_id : String) :
    Except String (Option Obj) :=
  if TorchEstimator._has_checkpoint store run_id then
    match TorchEstimator._load_checkpoint store run_id with
    | some st => Except.ok (some st)
    | none => Except.error "CheckpointReadError"
  else Except.ok none

/-- `TorchEstimator._create_model` (estimator.py lines 254-264): destructures
`run_results[0]` (an empty result list raises), base64-decodes its serialized
model and its serialized optimizer, loads the optimizer with
`map_location=torch.device('cpu')` (forcing CPU placement), and constructs the
`TorchModel` from `_get_model_kwargs`; all later workers' results are unused. -/
def TorchEstimator._create_model (est : TorchEstimator)
    (run_results : List RunResult) (run_id : String) (metadata : Metadata) :
    Option TorchModel :=
  match run_results with
  | [] => none
  | r :: _ =>
    match loads_base64 r.serialized_model, loads_base64_opt r.serialized_optimizer with
    | some model, some optimizer_raw =>
      let opt : Optimizer := { optimizer_raw with device := Device.cpu }
      some (torchModelInit (some r.history) (some model) est.feature_cols
        est.input_shapes est.label_cols (some opt) (some run_id) (some metadata))
    | _, _ => none

/-- `TorchEstimator._fit_on_prepared_data` (estimator.py lines 216-237): checks
that a model is configured (raising `'Model parameter is required'` otherwise),
runs the shape-compatibility check, derives the run id (time-based with a
`pytorch_` framework tag when unset), resolves the checkpoint state, serializes
the pre-trained model, dispatches to `backend.run`, and builds the result model
from the returned worker results.  Returns the outcome together with the trace
of collaborator invocations, in call order. -/
def TorchEstimator._fit_on_prepared_data (est : TorchEstimator) (env : Env)
    (backend : Backend) (train_rows val_rows : Nat) (metadata : Metadata)
    (avg_row_size : Nat) : Except String TorchModel × List Event :=
  match est.model with
  | none => (Except.error "Model parameter is required", [])
  | some model_pre_train =>
    if env.shape_ok = false then
      (Except.error "IncompatibleShapeError", [Event.shapeCheck])
    else
      let run_id : String :=
        match est.run_id with
        | some rid => rid
        | none => "pytorch_" ++ toString env.time
      match est.store with
      | none => (Except.error "AttributeError", [Event.shapeCheck])
      | some store =>
        match lastCheckpointState store run_id with
        | Except.error e =>
          (Except.error e, [Event.shapeCheck, Event.checkpointQuery run_id])
        | Except.ok last_checkpoint_state =>
          let serialized_model := dumps_base64 model_pre_train
          let handle := env.run_results
          let events := [Event.shapeCheck, Event.checkpointQuery run_id,
            Event.backendRun backend.num_processes serialized_model
              train_rows val_rows avg_row_size last_checkpoint_state run_id]
          match TorchEstimator._create_model est handle run_id metadata with
          | some tm => (Except.ok tm, events)
          | none => (Except.error "IndexError", events)

/-- The backend-resolution step of `TorchEstimator._fit` (estimator.py lines
194-201): exactly one of `num_proc` and `backend` must be supplied; with only
`num_proc`, a default `SparkBackend` sized to it is constructed; with only
`backend`, the process count is read from it via `num_processes()`. -/
def resolveBackend : Option Nat → Option Backend → Except String (Nat × Backend)
  | none, none =>
    Except.error "Exactly one of parameters \"num_processes\" and \"backend\" must be specified"
  | some _, some _ =>
    Except.error "Exactly one of parameters \"num_processes\" and \"backend\" must be specified"
  | some num_processes, none => Except.ok (num_processes, SparkBackend num_processes)
  | none, some backend => Except.ok (backend.num_processes, backend)

/-- `TorchEstimator._fit` (estimator.py lines 184-214): resolves the backend
(raising on an XOR violation before any collaborator runs), invokes the Data
Preparation collaborator, and continues with `_fit_on_prepared_data`.  Returns
the outcome together with the collaborator-invocation trace. -/
def TorchEstimator._fit (est : TorchEstimator) (env : Env) :
    Except String TorchModel × List Event :=
  match resolveBackend est.num_proc est.backend with
  | Except.error e => (Except.error e, [])
  | Except.ok nb =>
    let prep := env.prepare_data
    let r := TorchEstimator._fit_on_prepared_data est env nb.2
      prep.train_rows prep.val_rows prep.metadata prep.avg_row_size
    (r.1, Event.prepareData nb.1 :: r.2)

/-! ### Concrete instances used by witnesses and counterexamples. -/

/-- A store that never has a checkpoint (path lookup returns null). -/
def store0 : Store :=
  { get_checkpoint_path := fun _ => none,
    exists_ := fun _ => false,
    read := fun _ => [] }

/-- A concrete opaque model object on an accelerator. -/
def objm : Obj := { payload := 7, device := Device.accel 1 }

/-- A concrete checkpoint object. -/
def objc : Obj := { payload := 11, device := Device.accel 0 }

/-- A concrete history object. -/
def hist0 : Obj := { payload := 21, device := Device.cpu }

/-- A second concrete history object, differing from `hist0`. -/
def hist1 : Obj := { payload := 22, device := Device.cpu }

/-- A concrete optimizer living on an accelerator with a fractional learning
rate. -/
def opt0 : Optimizer :=
  { cls := 3, params := { payload := 5, device := Device.accel 2 },
    state := { lr := mkRat 1 100, inner := 9 }, device := Device.accel 2 }

/-- A store whose checkpoint path for every run id is `"ckpt"`, which exists
and holds the encoded bytes of `objc`. -/
def store1 : Store :=
  { get_checkpoint_path := fun _ => some "ckpt",
    exists_ := fun _ => true,
    read := fun _ => dumps_base64 objc }

/-- A store that returns a checkpoint path that does not exist. -/
def store2 : Store :=
  { get_checkpoint_path := fun _ => some "gone",
    exists_ := fun _ => false,
    read := fun _ => [] }

/-- A concrete environment: data preparation succeeds, the shape check passes,
the backend returns no worker results, the clock reads 0. -/
def env0 : Env :=
  { prepare_data := { train_rows := 4, val_rows := 1, metadata := [], avg_row_size := 100 },
    shape_ok := true, run_results := [], time := 0 }

/-- An estimator configured with `num_proc=2` but NO model (the C1 scenario). -/
def est0 : TorchEstimator :=
  { num_proc := some 2, model := none, backend := none, store := some store0 }

/-- An estimator with a model but with neither `num_proc` nor `backend`. -/
def est2 : TorchEstimator :=
  { num_proc := none, model := some objm, backend := none, store := some store0 }

/-- An estimator with a model and a stored optimizer. -/
def est1 : TorchEstimator :=
  { num_proc := some 2, model := some objm, backend := none,
    store := some store0, optimizer := some opt0,
    feature_cols := some ["x1"], input_shapes := some [[1]],
    label_cols := some ["y1"] }

/-- A trained model entity with no model set but a stored optimizer. -/
def tmod0 : TorchModel :=
  { model := none, optimizer := some opt0 }

/-- A trained model entity with a model and a stored optimizer. -/
def tmod1 : TorchModel :=
  { model := some objm, optimizer := some opt0 }

/-- Canonical worker result: history `hist0`, encoded `objm` and `opt0`. -/
def r0 : RunResult :=
  { history := hist0, serialized_model := dumps_base64 objm,
    serialized_optimizer := dumps_base64_opt opt0 }

/-- A second worker result with a different history. -/
def r1 : RunResult :=
  { history := hist1, serialized_model := dumps_base64 objm,
    serialized_optimizer := dumps_base64_opt opt0 }

/-- Concrete column metadata for one scalar label column. -/
def md0 : Metadata := [("y1", { spark_data_type := ColType.scalarType ScalarType.IntegerType, shape := 1 })]

/-! ### Helper lemmas. -/

/-- The object codec round-trips: decoding an encoding returns the object. -/
theorem loads_dumps_roundtrip (o : Obj) : loads_base64 (dumps_base64 o) = some o := by
  cases o with
  | mk payload device => cases device <;> rfl

/-- The reader inverts the writer entry-wise: deserializing a dictionary whose
non-null values were base64-encoded returns the original dictionary. -/
theorem deserialize_dict_dumps (d : List (String × Option Obj)) :
    _deserialize_dict (d.map fun kv => (kv.1, kv.2.map dumps_base64)) = Except.ok d := by
  induction d with
  | nil => rfl
  | cons kv rest ih =>
    obtain ⟨k, v⟩ := kv
    cases v with
    | none => simp [_deserialize_dict, ih]
    | some o => simp [_deserialize_dict, loads_dumps_roundtrip, ih]

/-- C3: supplying both `loss` and `loss_constructor` to the constructor raises
a configuration error (a `ValueError` in the code, `ConfigurationError` in the
spec's taxonomy), and a supplied scalar (non-list, non-tuple) `loss` is stored
normalized to the one-element list `[loss]`. -/
theorem c3_loss_exclusive_and_normalize (kw : TorchEstimatorKwargs)
    (l lc : PyLoss) (o : Obj) :
    (kw.loss = some l → kw.loss_constructor = some lc →
      torchEstimatorInitLoss kw =
        Except.error "only one of loss_constructor and loss parameters can be specified.")
    ∧ torchEstimatorInitLoss { loss := some (PyLoss.scalar o), loss_constructor := none }
        = Except.ok { loss := some (PyLoss.list [o]), loss_constructor := none } := by
  constructor
  · intro h1 h2
    simp [torchEstimatorInitLoss, h1, h2]
  · rfl

/-- Witness for C3 at concrete inputs. -/
theorem c3_loss_exclusive_and_normalize_witness :
    torchEstimatorInitLoss
        { loss := some (PyLoss.scalar objm), loss_constructor := some (PyLoss.list []) }
      = Except.error "only one of loss_constructor and loss parameters can be specified."
    ∧ torchEstimatorInitLoss { loss := some (PyLoss.scalar objm), loss_constructor := none }
      = Except.ok { loss := some (PyLoss.list [objm]), loss_constructor := none } := by
  have h := c3_loss_exclusive_and_normalize
    { loss := some (PyLoss.scalar objm), loss_constructor := some (PyLoss.list []) }
    (PyLoss.scalar objm) (PyLoss.list []) objm
  exact ⟨h.1 rfl rfl, h.2⟩

/-- C9: for every non-empty label-column list passed to the trained model's
constructor, the output columns are, in order, each label column name with the
suffix `"__output"` appended. -/
theorem c9_output_cols (history model : Option Obj)
    (feature_columns : Option (List String)) (input_shapes : Option (List (List Int)))
    (label_columns : List String) (optimizer : Option Optimizer)
    (run_id : Option String) (md : Option Metadata)
    (h : label_columns ≠ []) :
    (torchModelInit history model feature_columns input_shapes
        (some label_columns) optimizer run_id md).output_cols
      = some (label_columns.map fun col => col ++ "__output") := by
  cases label_columns with
  | nil => exact absurd rfl h
  | cons a as => rfl

/-- Witness for C9 at a concrete two-column list. -/
theorem c9_output_cols_witness :
    (torchModelInit none none none none (some ["y1", "y2"]) none none none).output_cols
      = some ["y1__output", "y2__output"] := by
  have h := c9_output_cols none none none none ["y1", "y2"] none none none (by decide)
  exact h

/-- C6: for a label column whose declared spark data type is scalar and
integral, the prediction value is rounded (Python 3 `round`) before the cast to
the declared python type; in particular `2.7` decodes to the integer `3`. -/
theorem c6_integral_round (t : ScalarType) (sh : Nat) (v : Rat)
    (h : (spark_scalar_to_python_type t).isIntegral = true) :
    decodePred { spark_data_type := ColType.scalarType t, shape := sh } [v]
        = some (RowField.intF (pythonRound v))
    ∧ pythonRound (mkRat 27 10) = 3 := by
  constructor
  · simp [decodePred, h]
  · decide

/-- Witness for C6 at `IntegerType` and prediction `2.7`. -/
theorem c6_integral_round_witness :
    decodePred { spark_data_type := ColType.scalarType ScalarType.IntegerType, shape := 1 }
        [(mkRat 27 10)] = some (RowField.intF (pythonRound (mkRat 27 10)))
    ∧ pythonRound (mkRat 27 10) = 3 :=
  c6_integral_round ScalarType.IntegerType 1 (mkRat 27 10) rfl

/-- C7 (code bug evaluation): on the spec's single-nonzero example
`[0,0,3.1,0,0]` with shape 5 the code does produce indices `[2]` and values
`[3.1]`; but on a prediction with two nonzero entries `[0,2,3]` with shape 3
the code emits only the FIRST nonzero (indices `[1]`, values `[2]`), because
`flattened_pred.nonzero()[0]` selects the first row of torch's nonzero-index
matrix instead of all nonzero indices `[1,2]` with values `[2,3]`. -/
theorem c7_sparse_keeps_first_nonzero_only :
    decodePred { spark_data_type := ColType.SparseVectorType, shape := 5 }
        ([0, 0, mkRat 31 10, 0, 0] : List Rat)
      = some (RowField.sparse 5 [2] [mkRat 31 10])
    ∧ decodePred { spark_data_type := ColType.SparseVectorType, shape := 3 }
        ([0, 2, 3] : List Rat)
      = some (RowField.sparse 3 [1] [2])
    ∧ RowField.sparse 3 [1] [2] ≠ RowField.sparse 3 [1, 2] [2, 3] := by
  refine ⟨?_, ?_, ?_⟩ <;> decide

/-- C8: the persisted-configuration serializer returns null for the backend
and store parameters regardless of value, returns null for a null value, and
base64-encodes every other value; the reader maps null back to null and
decodes every non-null entry (inverting the writer). -/
theorem c8_param_serialize (name : String) (v : Obj)
    (d : List (String × Option Obj)) :
    _torch_param_serialize "backend" (some v) = none
    ∧ _torch_param_serialize "store" (some v) = none
    ∧ _torch_param_serialize name none = none
    ∧ (name ≠ "backend" → name ≠ "store" →
        _torch_param_serialize name (some v) = some (dumps_base64 v))
    ∧ _deserialize_dict (d.map fun kv => (kv.1, kv.2.map dumps_base64)) = Except.ok d := by
  refine ⟨?_, ?_, ?_, ?_, deserialize_dict_dumps d⟩
  · unfold _torch_param_serialize
    rw [if_pos (Or.inl rfl)]
  · unfold _torch_param_serialize
    rw [if_pos (Or.inr rfl)]
  · unfold _torch_param_serialize
    split
    · rfl
    · rfl
  · intro h1 h2
    unfold _torch_param_serialize
    rw [if_neg (not_or.mpr ⟨h1, h2⟩)]

/-- Witness for C8 at concrete parameter names, value and dictionary. -/
theorem c8_param_serialize_witness :
    _torch_param_serialize "backend" (some objm) = none
    ∧ _torch_param_serialize "store" (some objm) = none
    ∧ _torch_param_serialize "model" none = none
    ∧ _torch_param_serialize "model" (some objm) = some (dumps_base64 objm)
    ∧ _deserialize_dict
        (([("model", some objm), ("backend", none)] : List (String × Option Obj)).map
          fun kv => (kv.1, kv.2.map dumps_base64))
      = Except.ok [("model", some objm), ("backend", none)] := by
  have h := c8_param_serialize "model" objm [("model", some objm), ("backend", none)]
  exact ⟨h.1, h.2.1, h.2.2.1, h.2.2.2.1 (by decide) (by decide), h.2.2.2.2⟩

/-- C10: with model and optimizer both set, `getOptimizer` (on the estimator
and on the trained model alike) returns a freshly constructed optimizer of the
stored optimizer's class over the model's parameters whose loaded state
dictionary equals the stored optimizer's, and leaves the instance (hence the
stored optimizer parameter) unchanged; with no model set it returns the stored
optimizer value as-is. -/
theorem c10_get_optimizer (est : TorchEstimator) (tmod : TorchModel)
    (m m2 : Obj) (o o2 : Optimizer) :
    (est.model = some m → est.optimizer = some o →
      est.getOptimizer =
        (Except.ok (some ((optimizerNew o.cls m.parameters 1).load_state_dict o.state_dict)), est)
      ∧ ((optimizerNew o.cls m.parameters 1).load_state_dict o.state_dict).state_dict
          = o.state_dict
      ∧ ((optimizerNew o.cls m.parameters 1).load_state_dict o.state_dict).cls = o.cls
      ∧ ((optimizerNew o.cls m.parameters 1).load_state_dict o.state_dict).params
          = m.parameters)
    ∧ (est.model = none → est.getOptimizer = (Except.ok est.optimizer, est))
    ∧ (tmod.model = some m2 → tmod.optimizer = some o2 →
      tmod.getOptimizer =
        (Except.ok (some ((optimizerNew o2.cls m2.parameters 1).load_state_dict o2.state_dict)), tmod)
      ∧ ((optimizerNew o2.cls m2.parameters 1).load_state_dict o2.state_dict).state_dict
          = o2.state_dict)
    ∧ (tmod.model = none → tmod.getOptimizer = (Except.ok tmod.optimizer, tmod)) := by
  refine ⟨?_, ?_, ?_, ?_⟩
  · intro h1 h2
    refine ⟨?_, rfl, rfl, rfl⟩
    simp [TorchEstimator.getOptimizer, h1, h2]
  · intro h1
    simp [TorchEstimator.getOptimizer, h1]
  · intro h1 h2
    refine ⟨?_, rfl⟩
    simp [TorchModel.getOptimizer, h1, h2]
  · intro h1
    simp [TorchModel.getOptimizer, h1]

/-- Witness for C10 on concrete estimators and trained models, with and
without a model set. -/
theorem c10_get_optimizer_witness :
    TorchEstimator.getOptimizer est1 =
      (Except.ok (some ((optimizerNew opt0.cls objm.parameters 1).load_state_dict opt0.state_dict)), est1)
    ∧ TorchEstimator.getOptimizer est0 = (Except.ok est0.optimizer, est0)
    ∧ TorchModel.getOptimizer tmod1 =
      (Except.ok (some ((optimizerNew opt0.cls objm.parameters 1).load_state_dict opt0.state_dict)), tmod1)
    ∧ TorchModel.getOptimizer tmod0 = (Except.ok tmod0.optimizer, tmod0) := by
  have ha := c10_get_optimizer est1 tmod1 objm objm opt0 opt0
  have hb := c10_get_optimizer est0 tmod0 objm objm opt0 opt0
  exact ⟨(ha.1 rfl rfl).1, hb.2.1 rfl, (ha.2.2.1 rfl rfl).1, hb.2.2.2 rfl⟩

/-- C5: checkpoint resolution treats a null path and a non-null-but-missing
path identically (fresh training, `last_checkpoint_state = null`, no error),
and the checkpoint is read and decoded exactly when the store returns a
non-null path that exists. -/
theorem c5_checkpoint_resolution (store : Store) (rid p : String) :
    (TorchEstimator._has_checkpoint store rid = true ↔
      ∃ q, store.get_checkpoint_path rid = some q ∧ store.exists_ q = true)
    ∧ (store.get_checkpoint_path rid = none →
        lastCheckpointState store rid = Except.ok none)
    ∧ (store.get_checkpoint_path rid = some p → store.exists_ p = false →
        lastCheckpointState store rid = Except.ok none)
    ∧ (store.get_checkpoint_path rid = some p → store.exists_ p = true →
        lastCheckpointState store rid =
          match torch_load_bytes (store.read p) with
          | some st => Except.ok (some st)
          | none => Except.error "CheckpointReadError") := by
  refine ⟨?_, ?_, ?_, ?_⟩
  · cases hp : store.get_checkpoint_path rid with
    | none => simp [TorchEstimator._has_checkpoint, hp]
    | some q => simp [TorchEstimator._has_checkpoint, hp]
  · intro hp
    simp [lastCheckpointState, TorchEstimator._has_checkpoint, hp]
  · intro hp hex
    simp [lastCheckpointState, TorchEstimator._has_checkpoint, hp, hex]
  · intro hp hex
    simp [lastCheckpointState, TorchEstimator._has_checkpoint,
      TorchEstimator._load_checkpoint, hp, hex]

/-- Witness for C5 on three concrete stores: null path, missing path, and an
existing checkpoint. -/
theorem c5_checkpoint_resolution_witness :
    lastCheckpointState store0 "R1" = Except.ok none
    ∧ lastCheckpointState store2 "R1" = Except.ok none
    ∧ lastCheckpointState store1 "R1" =
        (match torch_load_bytes (store1.read "ckpt") with
         | some st => Except.ok (some st)
         | none => Except.error "CheckpointReadError") :=
  ⟨(c5_checkpoint_resolution store0 "R1" "x").2.1 rfl,
   (c5_checkpoint_resolution store2 "R1" "gone").2.2.1 rfl rfl,
   (c5_checkpoint_resolution store1 "R1" "ckpt").2.2.2 rfl rfl⟩

/-- C2: fit requires exactly one of `num_proc` and `backend`: if both or
neither are set it raises before invoking any collaborator; with only
`num_proc` the default backend is constructed sized to it; with only `backend`
the process count is read from the supplied backend. -/
theorem c2_backend_xor (est : TorchEstimator) (env : Env) (n : Nat) (b : Backend) :
    (est.num_proc.isNone = est.backend.isNone →
      est._fit env =
        (Except.error "Exactly one of parameters \"num_processes\" and \"backend\" must be specified", []))
    ∧ resolveBackend (some n) none = Except.ok (n, SparkBackend n)
    ∧ (SparkBackend n).num_processes = n
    ∧ resolveBackend none (some b) = Except.ok (b.num_processes, b) := by
  refine ⟨?_, rfl, rfl, rfl⟩
  intro h
  cases hnp : est.num_proc <;> cases hb : est.backend
  · simp [TorchEstimator._fit, resolveBackend, hnp, hb]
  · rw [hnp, hb] at h; simp at h
  · rw [hnp, hb] at h; simp at h
  · simp [TorchEstimator._fit, resolveBackend, hnp, hb]

/-- Witness for C2 at a concrete estimator with neither parameter set. -/
theorem c2_backend_xor_witness :
    TorchEstimator._fit est2 env0 =
      (Except.error "Exactly one of parameters \"num_processes\" and \"backend\" must be specified", [])
    ∧ resolveBackend (some 3) none = Except.ok (3, SparkBackend 3)
    ∧ (SparkBackend 3).num_processes = 3
    ∧ resolveBackend none (some (SparkBackend 4))
        = Except.ok ((SparkBackend 4).num_processes, SparkBackend 4) := by
  have h := c2_backend_xor est2 env0 3 (SparkBackend 4)
  exact ⟨h.1 rfl, h.2.1, h.2.2.1, h.2.2.2⟩

/-- C1 counterexample: with `model` unset (and a valid `num_proc`), fit does
raise `'Model parameter is required'`, but the data-preparation collaborator
HAS been invoked by then — the trace contains the prepare-data call, refuting
the claim that the collaborator is never called. -/
theorem c1_counterexample :
    (TorchEstimator._fit est0 env0).2 = [Event.prepareData 2]
    ∧ (TorchEstimator._fit est0 env0).1 = Except.error "Model parameter is required" :=
  ⟨rfl, rfl⟩

/-- C1 (amended): calling fit with `model` unset and a valid num_proc/backend
configuration raises the configuration error `'Model parameter is required'`,
but only AFTER the data-preparation collaborator has run: the trace is exactly
one prepare-data invocation, with no shape check, checkpoint query or backend
dispatch. -/
theorem c1_model_required_after_prepare (est : TorchEstimator) (env : Env)
    (hm : est.model = none) (hx : est.num_proc.isNone ≠ est.backend.isNone) :
    (est._fit env).1 = Except.error "Model parameter is required"
    ∧ ∃ np, (est._fit env).2 = [Event.prepareData np] := by
  cases hnp : est.num_proc with
  | none =>
    cases hb : est.backend with
    | none => rw [hnp, hb] at hx; simp at hx
    | some b =>
      refine ⟨?_, b.num_processes, ?_⟩ <;>
        simp [TorchEstimator._fit, resolveBackend, hnp, hb,
          TorchEstimator._fit_on_prepared_data, hm]
  | some n =>
    cases hb : est.backend with
    | none =>
      refine ⟨?_, n, ?_⟩ <;>
        simp [TorchEstimator._fit, resolveBackend, hnp, hb,
          TorchEstimator._fit_on_prepared_data, hm]
    | some b => rw [hnp, hb] at hx; simp at hx

/-- Witness for the amended C1 at the concrete modelless estimator. -/
theorem c1_model_required_after_prepare_witness :
    (TorchEstimator._fit est0 env0).1 = Except.error "Model parameter is required"
    ∧ ∃ np, (TorchEstimator._fit est0 env0).2 = [Event.prepareData np] :=
  c1_model_required_after_prepare est0 env0 rfl (by decide)

/-- C4: for every non-empty worker-result list, the built model's history is
exactly `RunResult[0].history`, its model and optimizer are decoded from
`RunResult[0]`'s serialized fields with the optimizer forced onto CPU
placement, and the result is independent of all other workers' results. -/
theorem c4_canonical_result (est : TorchEstimator) (r : RunResult)
    (rest : List RunResult) (rid : String) (md : Metadata) (m : Obj) (o : Optimizer)
    (hm : loads_base64 r.serialized_model = some m)
    (ho : loads_base64_opt r.serialized_optimizer = some o) :
    ∃ tm, est._create_model (r :: rest) rid md = some tm
      ∧ tm.history = some r.history
      ∧ tm.model = some m
      ∧ tm.optimizer = some { o with device := Device.cpu }
      ∧ ∀ rest', est._create_model (r :: rest') rid md = some tm := by
  refine ⟨torchModelInit (some r.history) (some m) est.feature_cols est.input_shapes
    est.label_cols (some { o with device := Device.cpu }) (some rid) (some md),
    ?_, rfl, rfl, rfl, ?_⟩
  · simp [TorchEstimator._create_model, hm, ho]
  · intro rest'
    simp [TorchEstimator._create_model, hm, ho]

/-- Witness for C4 at concrete worker results with differing histories. -/
theorem c4_canonical_result_witness :
    ∃ tm, TorchEstimator._create_model est1 (r0 :: [r1]) "run1" md0 = some tm
      ∧ tm.history = some r0.history
      ∧ tm.model = some objm
      ∧ tm.optimizer = some { opt0 with device := Device.cpu }
      ∧ ∀ rest', TorchEstimator._create_model est1 (r0 :: rest') "run1" md0 = some tm :=
  c4_canonical_result est1 r0 [r1] "run1" md0 objm opt0 rfl rfl

end Horovod
